import Mathlib

/-!
# Bankist slider (`script.js`, lines 200-352)

A shallow embedding of the slider closure of `script.js`: the slide position
engine (`goToSlide`, `activeDot`, `nextSlide`, `prevSlide`, `initSlider`), the
click and keyboard bindings, and the drag tracker of `sliderTouch`
(`touchStart`, `touchMove`, `touchEnd`, `setPositionByIndex`).

The DOM is reduced to what the slider reads and writes: the inline
`translateX` percentage of every `.slide`, the `.dots__dot` buttons with their
`data-slide` attribute and `dots__dot--active` class, the `disabled` class of
the two arrow buttons, the `grabbing` class of the container, and
`window.innerWidth`.  JavaScript numbers are modelled as `Int` (all values are
integers built from indices and integer pointer coordinates).

A handler that throws (the `null.classList` lookup in `activeDot`) keeps every
mutation it made before the throw; this is recorded by `Outcome.threw`.
-/

namespace Bankist

/-- One `.dots__dot` button: its `data-slide` attribute and whether it carries
the class `dots__dot--active`. -/
structure Dot where
  dataSlide : Int
  active : Bool
deriving DecidableEq

/-- The variables captured by the `slider` closure together with the part of
the page it touches.  `goToSlideLog` is instrumentation only: it records the
argument of every `goToSlide` call, oldest first. -/
structure SliderState where
  /-- inline `translateX(..%)` of every `.slide`, `none` while unset -/
  slides : List (Option Int)
  /-- every `.dots__dot` element, in document order -/
  dots : List Dot
  /-- whether `btnLeft.classList` contains `disabled` -/
  btnLeftDisabled : Bool
  /-- whether `btnRight.classList` contains `disabled` -/
  btnRightDisabled : Bool
  /-- whether `sliderContainer.classList` contains `grabbing` -/
  grabbing : Bool
  /-- variable `let currentSlide` of `slider` -/
  currentSlide : Int
  /-- variable `let isDragging` of `sliderTouch` -/
  isDragging : Bool
  /-- variable `let startPos` of `sliderTouch` -/
  startPos : Int
  /-- variable `let currentTranslate` of `sliderTouch` -/
  currentTranslate : Int
  /-- variable `let prevTranslate` of `sliderTouch` -/
  prevTranslate : Int
  /-- variable `let currentIndex` of `sliderTouch` -/
  currentIndex : Int
  /-- value of `window.innerWidth` -/
  innerWidth : Int
  /-- arguments of the `goToSlide` calls made so far -/
  goToSlideLog : List Int
deriving DecidableEq

/-- Result of running a function of the closure: the state it leaves and
whether it ended by throwing. -/
structure Outcome where
  st : SliderState
  threw : Bool
deriving DecidableEq

/-- Normal completion. -/
def Outcome.done (s : SliderState) : Outcome := ⟨s, false⟩

/-- Sequencing of statements: what follows a throw is not run. -/
def Outcome.andThen (r : Outcome) (f : SliderState → Outcome) : Outcome :=
  if r.threw then r else f r.st

/-- The constant `maxSlide = slides.length`. -/
def maxSlide (s : SliderState) : Int := (s.slides.length : Int)

/-- Function `createDots`: one button per slide, appended to the dot container, with
`data-slide` set to the slide position. -/
def createDots (s : SliderState) : SliderState :=
  let made : List Dot := (List.range s.slides.length).map
    (fun (i : Nat) => { dataSlide := (i : Int), active := false })
  { s with dots := s.dots ++ made }

/-- The lookup `document.querySelector('.dots__dot[data-slide="slide"]').classList.add(..)`:
the first dot whose attribute matches gets the active class; `none` when the
selector matches nothing (the lookup returns `null` and `.classList` throws). -/
def activateFirst (slide : Int) : List Dot → Option (List Dot)
  | [] => none
  | d :: ds =>
    if d.dataSlide = slide then some ({ d with active := true } :: ds)
    else (activateFirst slide ds).map (fun r => d :: r)

/-- Function `activeDot(slide)`: remove the active class from every dot, then add it to
the dot of `slide`. -/
def activeDot (s : SliderState) (slide : Int) : Outcome :=
  let cleared := s.dots.map (fun d => ({ d with active := false } : Dot))
  match activateFirst slide cleared with
  | none => ⟨{ s with dots := cleared }, true⟩
  | some ds => ⟨{ s with dots := ds }, false⟩

/-- Function `goToSlide(slide)`: translate every slide, move the active dot, recompute
the `disabled` class of both arrow buttons. -/
def goToSlide (s : SliderState) (slide : Int) : Outcome :=
  let s1 : SliderState :=
    { s with slides := s.slides.mapIdx (fun i _ => some (100 * ((i : Int) - slide))),
             goToSlideLog := s.goToSlideLog ++ [slide] }
  (activeDot s1 slide).andThen fun s2 =>
    let s3 : SliderState := { s2 with btnRightDisabled := false, btnLeftDisabled := false }
    let s4 : SliderState := if slide = 0 then { s3 with btnLeftDisabled := true } else s3
    let s5 : SliderState :=
      if slide = maxSlide s - 1 then { s4 with btnRightDisabled := true } else s4
    Outcome.done s5

/-- Function `nextSlide`: `currentSlide++; goToSlide(currentSlide)`. -/
def nextSlide (s : SliderState) : Outcome :=
  let s1 : SliderState := { s with currentSlide := s.currentSlide + 1 }
  goToSlide s1 s1.currentSlide

/-- Function `prevSlide`: `currentSlide--; goToSlide(currentSlide)`. -/
def prevSlide (s : SliderState) : Outcome :=
  let s1 : SliderState := { s with currentSlide := s.currentSlide - 1 }
  goToSlide s1 s1.currentSlide

/-- Function `initSlider`: `createDots(); goToSlide(0)`. -/
def initSlider (s : SliderState) : Outcome :=
  goToSlide (createDots s) 0

/-- The click listener of the dot container, for a click whose target is the
`k`-th `.dots__dot` element; a click that is not on a dot does nothing. -/
def dotClick (s : SliderState) (k : Nat) : Outcome :=
  match s.dots[k]? with
  | some d => goToSlide s d.dataSlide
  | none => Outcome.done s

/-- The `keydown` listener of the document:
`e.key === 'ArrowLeft' && prevSlide(); e.key === 'ArrowRight' && nextSlide();`. -/
def keydown (s : SliderState) (key : String) : Outcome :=
  (if key = "ArrowLeft" then prevSlide s else Outcome.done s).andThen fun s1 =>
    if key = "ArrowRight" then nextSlide s1 else Outcome.done s1

/-- Listener `touchStart(index)` applied to an event at horizontal position `x`. -/
def touchStart (index : Nat) (s : SliderState) (x : Int) : SliderState :=
  { s with currentIndex := (index : Int), startPos := x, isDragging := true, grabbing := true }

/-- Listener `touchMove` for an event at horizontal position `x`. -/
def touchMove (s : SliderState) (x : Int) : SliderState :=
  if s.isDragging then { s with currentTranslate := s.prevTranslate + x - s.startPos } else s

/-- Function `setPositionByIndex`: both translate variables take the natural
offset of the tracker index. -/
def setPositionByIndex (s : SliderState) : SliderState :=
  let t := s.currentIndex * -s.innerWidth
  { s with currentTranslate := t, prevTranslate := t }

/-- Listener `touchEnd`: the drag ends; beyond the threshold of 100 the tracker
index moves by one, guarded by the slide count, and `goToSlide` is called;
then `setPositionByIndex()` and the container loses `grabbing`. -/
def touchEnd (s : SliderState) : Outcome :=
  let s0 : SliderState := { s with isDragging := false }
  let movedBy := s0.currentTranslate - s0.prevTranslate
  (if movedBy < -100 ∧ s0.currentIndex < (s0.slides.length : Int) - 1 then
      let s1 : SliderState := { s0 with currentIndex := s0.currentIndex + 1 }
      goToSlide s1 s1.currentIndex
    else Outcome.done s0).andThen fun s2 =>
  (if movedBy > 100 ∧ s2.currentIndex > 0 then
      let s3 : SliderState := { s2 with currentIndex := s2.currentIndex - 1 }
      goToSlide s3 s3.currentIndex
    else Outcome.done s2).andThen fun s4 =>
  Outcome.done { setPositionByIndex s4 with grabbing := false }

/-- The `resize` listener, the viewport having taken width `w`. -/
def onResize (s : SliderState) (w : Int) : SliderState :=
  setPositionByIndex { s with innerWidth := w }

/-- The events the slider listens to. -/
inductive Event where
  /-- click on `[data-slider-right]` -/
  | clickNext
  /-- click on `[data-slider-left]` -/
  | clickPrev
  /-- event `keydown` with the given `e.key` -/
  | key (name : String)
  /-- click on the `k`-th `.dots__dot` element -/
  | clickDot (k : Nat)
  /-- event `touchstart` or `mousedown` on the slide at position `index`, at abscissa `x` -/
  | pointerDown (index : Nat) (x : Int)
  /-- event `touchmove` or `mousemove` on a slide, at abscissa `x` -/
  | pointerMove (x : Int)
  /-- event `touchend`, `mouseup` or `mouseleave` on a slide -/
  | release
  /-- event `resize` of the window to inner width `w` -/
  | resize (w : Int)
deriving DecidableEq

/-- The listener run for an event.  `touchStart(index)` is registered on the
slides only, so a pointer-down needs `index < slides.length`. -/
def handle (s : SliderState) : Event → Outcome
  | .clickNext => nextSlide s
  | .clickPrev => prevSlide s
  | .key name => keydown s name
  | .clickDot k => dotClick s k
  | .pointerDown index x =>
    if index < s.slides.length then Outcome.done (touchStart index s x) else Outcome.done s
  | .pointerMove x => Outcome.done (touchMove s x)
  | .release => touchEnd s
  | .resize w => Outcome.done (onResize s w)

/-- State after an event: an exception ends the listener, the page goes on
with whatever the listener had written. -/
def step (s : SliderState) (e : Event) : SliderState := (handle s e).st

/-- State after a sequence of events. -/
def run (s : SliderState) (es : List Event) : SliderState := es.foldl step s

/-- The page as `slider()` finds it: `n` slides without inline transform, no
dot yet, viewport of width `w`, and the initial values of the closure
variables. -/
def pageLoad (n : Nat) (w : Int) : SliderState :=
  { slides := List.replicate n none
    dots := []
    btnLeftDisabled := false
    btnRightDisabled := false
    grabbing := false
    currentSlide := 0
    isDragging := false
    startPos := 0
    currentTranslate := 0
    prevTranslate := 0
    currentIndex := 0
    innerWidth := w
    goToSlideLog := [] }

/-- State once `slider()` has run `initSlider()` on a page of `n` slides. -/
def loaded (n : Nat) (w : Int) : SliderState := (initSlider (pageLoad n w)).st

/-- Navigation commands: arrow buttons, arrow keys, dot click, drag release. -/
def Event.isNavigation : Event → Bool
  | .clickNext => true
  | .clickPrev => true
  | .key name => name = "ArrowLeft" ∨ name = "ArrowRight"
  | .clickDot _ => true
  | .release => true
  | _ => false

/-- Events of the drag tracker: pointer-down, pointer-move, release, resize. -/
def Event.isPointer : Event → Bool
  | .pointerDown _ _ => true
  | .pointerMove _ => true
  | .release => true
  | .resize _ => true
  | _ => false

/-- States the page can be in after `initSlider()` succeeded on `n` slides and
any finite sequence of events allowed by `allow` was handled. -/
inductive ReachableBy (allow : Event → Bool) (n : Nat) (w : Int) : SliderState → Prop where
  | init : (initSlider (pageLoad n w)).threw = false → ReachableBy allow n w (loaded n w)
  | next (s : SliderState) (e : Event) :
      ReachableBy allow n w s → allow e = true → ReachableBy allow n w (step s e)

/-- Reachable under every event. -/
def Reachable (n : Nat) (w : Int) (s : SliderState) : Prop :=
  ReachableBy (fun _ => true) n w s

/-- What the user sees of the slider: slide offsets, dots, arrow-button flags. -/
structure Display where
  slides : List (Option Int)
  dots : List Dot
  btnLeftDisabled : Bool
  btnRightDisabled : Bool
deriving DecidableEq

/-- The visible part of a state. -/
def SliderState.display (s : SliderState) : Display :=
  ⟨s.slides, s.dots, s.btnLeftDisabled, s.btnRightDisabled⟩

/-- The `data-slide` values of the dots carrying the active class. -/
def SliderState.activeDots (s : SliderState) : List Int :=
  (s.dots.filter (fun d => d.active)).map (fun d => d.dataSlide)

/-- The dots of a page of `n` slides when the dot of `t` is the active one. -/
def dotsShowing (n : Nat) (t : Int) : List Dot :=
  (List.range n).map (fun (i : Nat) => { dataSlide := (i : Int), active := decide ((i : Int) = t) })

/-- The inline offsets of a page of `n` slides when slide `t` is the one shown. -/
def slidesShowing (n : Nat) (t : Int) : List (Option Int) :=
  (List.range n).map (fun (i : Nat) => some (100 * ((i : Int) - t)))

/-- The state a successful `goToSlide(t)` leaves on a page of `n` slides. -/
def shown (n : Nat) (s : SliderState) (t : Int) : SliderState :=
  { s with slides := slidesShowing n t
           dots := dotsShowing n t
           btnLeftDisabled := decide (t = 0)
           btnRightDisabled := decide (t = (n : Int) - 1)
           goToSlideLog := s.goToSlideLog ++ [t] }

/-- The drag gesture: pointer-down at `x0` on slide `i`, pointer-moves through
`mid` and last at `x1`, then release. -/
def dragGesture (i : Nat) (x0 : Int) (mid : List Int) (x1 : Int) : List Event :=
  Event.pointerDown i x0 :: ((mid ++ [x1]).map Event.pointerMove ++ [Event.release])

/-- The state in which the release of `dragGesture` finds the closure, the
gesture having started in `s`. -/
def atRelease (s : SliderState) (i : Nat) (x0 x1 : Int) : SliderState :=
  { s with currentIndex := (i : Int)
           startPos := x0
           isDragging := true
           grabbing := true
           currentTranslate := s.prevTranslate + x1 - x0 }

/-- State after `k` calls of `nextSlide`. -/
def nextTimes : Nat → SliderState → SliderState
  | 0, s => s
  | k + 1, s => nextTimes k (nextSlide s).st

/-- What a page of `n` slides displays when `goToSlide(t)` was the last call. -/
def displayOf (n : Nat) (t : Int) : Display :=
  ⟨slidesShowing n t, dotsShowing n t, decide (t = 0), decide (t = (n : Int) - 1)⟩

/-- Shape kept by every reachable state: `n` slides, and one dot per slide
position, in order. -/
structure Shaped (n : Nat) (s : SliderState) : Prop where
  slides_length : s.slides.length = n
  dots_attr : s.dots.map (fun d => d.dataSlide) = (List.range n).map (fun (i : Nat) => (i : Int))

/-- Consistency of the drag tracker: its index is a slide position and, when
no drag is active, both translate variables hold the natural offset of that
index and the container is not marked as grabbed. -/
structure Tracked (n : Nat) (s : SliderState) : Prop where
  index_lo : 0 ≤ s.currentIndex
  index_hi : s.currentIndex < (n : Int)
  idle_cur : s.isDragging = false → s.currentTranslate = s.currentIndex * -s.innerWidth
  idle_prev : s.isDragging = false → s.prevTranslate = s.currentIndex * -s.innerWidth
  idle_grab : s.isDragging = false → s.grabbing = false

/-- Invariant of the event loop. -/
def Inv (n : Nat) (s : SliderState) : Prop := Shaped n s ∧ Tracked n s

/-- The page of `n` slides displays slide `j` and `currentSlide` is `j`. -/
structure Showing (n : Nat) (j : Nat) (s : SliderState) : Prop where
  shaped : Shaped n s
  current : s.currentSlide = (j : Int)
  display : s.display = displayOf n (j : Int)

/-! ## Lemmas on the dots -/

theorem activateFirst_absent (t : Int) (ds : List Dot)
    (h : t ∉ ds.map (fun d => d.dataSlide)) :
    activateFirst t (ds.map (fun d => ({ d with active := false } : Dot))) = none := by
  induction ds with
  | nil => rfl
  | cons d ds ih =>
    simp only [List.map_cons, List.mem_cons, not_or] at h
    have hd : ¬ d.dataSlide = t := fun e => h.1 e.symm
    simp [activateFirst, hd, ih h.2]

theorem clear_absent (t : Int) (ds : List Dot)
    (h : t ∉ ds.map (fun d => d.dataSlide)) :
    ds.map (fun d => ({ d with active := false } : Dot)) =
      (ds.map (fun d => d.dataSlide)).map
        (fun a => ({ dataSlide := a, active := decide (a = t) } : Dot)) := by
  induction ds with
  | nil => rfl
  | cons d ds ih =>
    simp only [List.map_cons, List.mem_cons, not_or] at h
    have hd : ¬ d.dataSlide = t := fun e => h.1 e.symm
    simp only [List.map_cons, ih h.2]
    simp [hd]

theorem activateFirst_present (t : Int) (ds : List Dot)
    (hn : (ds.map (fun d => d.dataSlide)).Nodup)
    (h : t ∈ ds.map (fun d => d.dataSlide)) :
    activateFirst t (ds.map (fun d => ({ d with active := false } : Dot))) =
      some ((ds.map (fun d => d.dataSlide)).map
        (fun a => ({ dataSlide := a, active := decide (a = t) } : Dot))) := by
  induction ds with
  | nil => simp at h
  | cons d ds ih =>
    simp only [List.map_cons, List.nodup_cons] at hn
    by_cases hd : d.dataSlide = t
    · have hnot : t ∉ ds.map (fun d => d.dataSlide) := hd ▸ hn.1
      simp only [List.map_cons, activateFirst, hd, if_true, clear_absent t ds hnot]
      simp
    · have hin : t ∈ ds.map (fun d => d.dataSlide) := by
        simp only [List.map_cons, List.mem_cons] at h
        rcases h with h | h
        · exact absurd h.symm hd
        · exact h
      simp only [List.map_cons, activateFirst, hd, if_false, ih hn.2 hin]
      simp [hd]

theorem range_cast_nodup (n : Nat) : ((List.range n).map (fun (i : Nat) => (i : Int))).Nodup :=
  List.Nodup.map (fun _ _ h => Int.ofNat.inj h) (List.nodup_range n)

theorem mem_range_cast (n : Nat) (t : Int) :
    t ∈ (List.range n).map (fun (i : Nat) => (i : Int)) ↔ 0 ≤ t ∧ t < (n : Int) := by
  simp only [List.mem_map, List.mem_range]
  constructor
  · rintro ⟨i, hi, rfl⟩
    omega
  · rintro ⟨h0, h1⟩
    exact ⟨t.toNat, by omega, by omega⟩

/-- On a shaped page, `activeDot` of a slide position succeeds and leaves
exactly that dot active. -/
theorem activeDot_valid (n : Nat) (s : SliderState) (t : Int)
    (hs : s.dots.map (fun d => d.dataSlide) = (List.range n).map (fun (i : Nat) => (i : Int)))
    (h0 : 0 ≤ t) (h1 : t < (n : Int)) :
    activeDot s t = ⟨{ s with dots := dotsShowing n t }, false⟩ := by
  have hn : (s.dots.map (fun d => d.dataSlide)).Nodup := hs ▸ range_cast_nodup n
  have hin : t ∈ s.dots.map (fun d => d.dataSlide) := by
    rw [hs]; exact (mem_range_cast n t).2 ⟨h0, h1⟩
  simp only [activeDot, activateFirst_present t s.dots hn hin, hs, dotsShowing, List.map_map]
  rfl

/-- On a shaped page, `activeDot` of anything else throws, every dot having
lost the active class. -/
theorem activeDot_invalid (n : Nat) (s : SliderState) (t : Int)
    (hs : s.dots.map (fun d => d.dataSlide) = (List.range n).map (fun (i : Nat) => (i : Int)))
    (h : t < 0 ∨ (n : Int) ≤ t) :
    activeDot s t =
      ⟨{ s with dots := s.dots.map (fun d => ({ d with active := false } : Dot)) }, true⟩ := by
  have hout : t ∉ s.dots.map (fun d => d.dataSlide) := by
    rw [hs, mem_range_cast]; omega
  simp only [activeDot, activateFirst_absent t s.dots hout]

theorem dotsShowing_attr (n : Nat) (t : Int) :
    (dotsShowing n t).map (fun d => d.dataSlide) = (List.range n).map (fun (i : Nat) => (i : Int)) := by
  simp [dotsShowing, List.map_map, Function.comp_def]

/-! ## Lemmas on `goToSlide` -/

theorem mapIdx_offsets (l : List (Option Int)) (t : Int) :
    l.mapIdx (fun i _ => some (100 * ((i : Int) - t))) = slidesShowing l.length t := by
  rw [List.mapIdx_eq_iff]
  intro i
  by_cases hi : i < l.length
  · simp [slidesShowing, hi, List.getElem?_eq_getElem]
  · have h1 : l.length ≤ i := by omega
    have h2 : (List.range l.length).length ≤ i := by simpa using h1
    simp only [slidesShowing, List.getElem?_map, List.getElem?_eq_none h1,
      List.getElem?_eq_none h2, Option.map_none']

theorem goToSlide_valid (n : Nat) (s : SliderState) (t : Int) (hs : Shaped n s)
    (h0 : 0 ≤ t) (h1 : t < (n : Int)) :
    goToSlide s t = ⟨shown n s t, false⟩ := by
  have hd := hs.dots_attr
  have hl := hs.slides_length
  have key := activeDot_valid n
    { s with slides := slidesShowing n t
             goToSlideLog := s.goToSlideLog ++ [t] } t hd h0 h1
  simp only [goToSlide, mapIdx_offsets, hl, key, Outcome.andThen, Outcome.done, maxSlide, shown]
  split_ifs <;> simp_all

theorem goToSlide_invalid (n : Nat) (s : SliderState) (t : Int) (hs : Shaped n s)
    (h : t < 0 ∨ (n : Int) ≤ t) :
    goToSlide s t =
      ⟨{ s with slides := slidesShowing n t
                dots := s.dots.map (fun d => ({ d with active := false } : Dot))
                goToSlideLog := s.goToSlideLog ++ [t] }, true⟩ := by
  have hd := hs.dots_attr
  have hl := hs.slides_length
  have key := activeDot_invalid n
    { s with slides := slidesShowing n t
             goToSlideLog := s.goToSlideLog ++ [t] } t hd h
  simp only [goToSlide, mapIdx_offsets, hl, key]
  simp [Outcome.andThen]

theorem slidesShowing_length (n : Nat) (t : Int) : (slidesShowing n t).length = n := by
  simp [slidesShowing]

theorem shown_shaped (n : Nat) (s : SliderState) (t : Int) : Shaped n (shown n s t) :=
  ⟨slidesShowing_length n t, dotsShowing_attr n t⟩

/-- Whatever its argument, `goToSlide` keeps the page shaped. -/
theorem goToSlide_shaped (n : Nat) (s : SliderState) (t : Int) (hs : Shaped n s) :
    Shaped n (goToSlide s t).st := by
  by_cases h : 0 ≤ t ∧ t < (n : Int)
  · rw [goToSlide_valid n s t hs h.1 h.2]
    exact shown_shaped n s t
  · rw [goToSlide_invalid n s t hs (by omega)]
    refine ⟨slidesShowing_length n t, ?_⟩
    simp only [List.map_map, Function.comp_def]
    exact hs.dots_attr

/-- Whatever its argument, `goToSlide` leaves the closure variables alone. -/
theorem goToSlide_vars (n : Nat) (s : SliderState) (t : Int) (hs : Shaped n s) :
    (goToSlide s t).st.currentSlide = s.currentSlide ∧
    (goToSlide s t).st.isDragging = s.isDragging ∧
    (goToSlide s t).st.startPos = s.startPos ∧
    (goToSlide s t).st.currentTranslate = s.currentTranslate ∧
    (goToSlide s t).st.prevTranslate = s.prevTranslate ∧
    (goToSlide s t).st.currentIndex = s.currentIndex ∧
    (goToSlide s t).st.innerWidth = s.innerWidth ∧
    (goToSlide s t).st.grabbing = s.grabbing := by
  by_cases h : 0 ≤ t ∧ t < (n : Int)
  · rw [goToSlide_valid n s t hs h.1 h.2]
    simp [shown]
  · rw [goToSlide_invalid n s t hs (by omega)]
    simp

/-! ## Invariants of the event loop -/

theorem Shaped.carry {n : Nat} {s s' : SliderState} (hs : Shaped n s)
    (h1 : s'.slides = s.slides) (h2 : s'.dots = s.dots) : Shaped n s' :=
  ⟨h1 ▸ hs.slides_length, h2 ▸ hs.dots_attr⟩

theorem createDots_pageLoad_shaped (n : Nat) (w : Int) : Shaped n (createDots (pageLoad n w)) := by
  constructor
  · simp [createDots, pageLoad]
  · simp [createDots, pageLoad, List.map_map, Function.comp_def]

theorem initSlider_pageLoad (n : Nat) (w : Int) (hn : 0 < n) :
    initSlider (pageLoad n w) = ⟨shown n (createDots (pageLoad n w)) 0, false⟩ :=
  goToSlide_valid n _ 0 (createDots_pageLoad_shaped n w) (le_refl 0) (by omega)

theorem initSlider_threw_iff (n : Nat) (w : Int) :
    (initSlider (pageLoad n w)).threw = false ↔ 0 < n := by
  constructor
  · intro h
    by_contra hn
    have h0 : n = 0 := by omega
    subst h0
    have := goToSlide_invalid 0 _ 0 (createDots_pageLoad_shaped 0 w) (Or.inr (le_refl _))
    rw [initSlider, this] at h
    simp at h
  · intro hn
    rw [initSlider_pageLoad n w hn]

theorem loaded_eq (n : Nat) (w : Int) (hn : 0 < n) :
    loaded n w = shown n (createDots (pageLoad n w)) 0 := by
  rw [loaded, initSlider_pageLoad n w hn]

theorem nextSlide_shaped (n : Nat) (s : SliderState) (hs : Shaped n s) :
    Shaped n (nextSlide s).st :=
  goToSlide_shaped n _ _ (hs.carry rfl rfl)

theorem prevSlide_shaped (n : Nat) (s : SliderState) (hs : Shaped n s) :
    Shaped n (prevSlide s).st :=
  goToSlide_shaped n _ _ (hs.carry rfl rfl)

/-- The three ways `touchEnd` can go, on a shaped page whose tracker index is
a slide position: it never throws. -/
theorem touchEnd_advance (n : Nat) (s : SliderState) (hs : Shaped n s)
    (h0 : 0 ≤ s.currentIndex)
    (hm : s.currentTranslate - s.prevTranslate < -100) (hi : s.currentIndex < (n : Int) - 1) :
    touchEnd s =
      ⟨{ setPositionByIndex (shown n { s with isDragging := false
                                              currentIndex := s.currentIndex + 1 }
            (s.currentIndex + 1)) with grabbing := false }, false⟩ := by
  have hl := hs.slides_length
  have hs1 : Shaped n { s with isDragging := false, currentIndex := s.currentIndex + 1 } :=
    hs.carry rfl rfl
  have key := goToSlide_valid n _ (s.currentIndex + 1) hs1 (by omega) (by omega)
  have hm2 : ¬ (s.currentTranslate - s.prevTranslate > 100) := by omega
  simp only [touchEnd, hl, hm, hi, and_self, if_true, key, Outcome.andThen, Outcome.done]
  simp [shown, hm2]

theorem touchEnd_retreat (n : Nat) (s : SliderState) (hs : Shaped n s)
    (h1 : s.currentIndex < (n : Int))
    (hm : s.currentTranslate - s.prevTranslate > 100) (hi : s.currentIndex > 0) :
    touchEnd s =
      ⟨{ setPositionByIndex (shown n { s with isDragging := false
                                              currentIndex := s.currentIndex - 1 }
            (s.currentIndex - 1)) with grabbing := false }, false⟩ := by
  have hl := hs.slides_length
  have hs1 : Shaped n { s with isDragging := false, currentIndex := s.currentIndex - 1 } :=
    hs.carry rfl rfl
  have key := goToSlide_valid n _ (s.currentIndex - 1) hs1 (by omega) (by omega)
  have hm2 : ¬ (s.currentTranslate - s.prevTranslate < -100) := by omega
  simp only [touchEnd, hl, hm, hi, hm2, false_and, and_self, if_true, if_false, key,
    Outcome.andThen, Outcome.done]
  simp

theorem touchEnd_stay (s : SliderState)
    (ha : ¬ (s.currentTranslate - s.prevTranslate < -100 ∧
              s.currentIndex < (s.slides.length : Int) - 1))
    (hb : ¬ (s.currentTranslate - s.prevTranslate > 100 ∧ s.currentIndex > 0)) :
    touchEnd s =
      ⟨{ setPositionByIndex { s with isDragging := false } with grabbing := false }, false⟩ := by
  simp only [touchEnd, ha, hb, if_false, Outcome.andThen, Outcome.done]
  simp

theorem Outcome.andThen_done (r : Outcome) : r.andThen Outcome.done = r := by
  cases r with
  | mk st threw => cases threw <;> rfl

theorem keydown_left (s : SliderState) : keydown s "ArrowLeft" = prevSlide s := by
  have h : ¬ ("ArrowLeft" = "ArrowRight") := by decide
  simp only [keydown, if_true, h, if_false]
  exact Outcome.andThen_done _

theorem keydown_right (s : SliderState) : keydown s "ArrowRight" = nextSlide s := by
  have h : ¬ ("ArrowRight" = "ArrowLeft") := by decide
  simp only [keydown, if_true, h, if_false]
  rfl

theorem keydown_other (s : SliderState) (name : String)
    (h1 : name ≠ "ArrowLeft") (h2 : name ≠ "ArrowRight") : keydown s name = Outcome.done s := by
  simp only [keydown, h1, h2, if_false]
  rfl

theorem Tracked.keep {n : Nat} {s s' : SliderState} (ht : Tracked n s)
    (h1 : s'.currentIndex = s.currentIndex) (h2 : s'.isDragging = s.isDragging)
    (h3 : s'.currentTranslate = s.currentTranslate) (h4 : s'.prevTranslate = s.prevTranslate)
    (h5 : s'.innerWidth = s.innerWidth) (h6 : s'.grabbing = s.grabbing) : Tracked n s' := by
  constructor
  · rw [h1]; exact ht.index_lo
  · rw [h1]; exact ht.index_hi
  · rw [h1, h2, h3, h5]; exact ht.idle_cur
  · rw [h1, h2, h4, h5]; exact ht.idle_prev
  · rw [h2, h6]; exact ht.idle_grab

theorem goToSlide_tracked (n : Nat) (s : SliderState) (t : Int) (hs : Shaped n s)
    (ht : Tracked n s) : Tracked n (goToSlide s t).st := by
  obtain ⟨-, h2, -, h4, h5, h6, h7, h8⟩ := goToSlide_vars n s t hs
  exact ht.keep h6 h2 h4 h5 h7 h8

theorem touchEnd_inv (n : Nat) (s : SliderState) (h : Inv n s) :
    (touchEnd s).threw = false ∧ Inv n (touchEnd s).st := by
  obtain ⟨hs, ht⟩ := h
  have h0 := ht.index_lo
  have h1 := ht.index_hi
  have hl := hs.slides_length
  by_cases ha : s.currentTranslate - s.prevTranslate < -100 ∧ s.currentIndex < (n : Int) - 1
  · rw [touchEnd_advance n s hs h0 ha.1 ha.2]
    refine ⟨rfl, ⟨slidesShowing_length n _, dotsShowing_attr n _⟩, ?_⟩
    constructor <;> simp [setPositionByIndex, shown] <;> omega
  · by_cases hb : s.currentTranslate - s.prevTranslate > 100 ∧ s.currentIndex > 0
    · rw [touchEnd_retreat n s hs h1 hb.1 hb.2]
      refine ⟨rfl, ⟨slidesShowing_length n _, dotsShowing_attr n _⟩, ?_⟩
      constructor <;> simp [setPositionByIndex, shown] <;> omega
    · rw [touchEnd_stay s (by rw [hl]; exact ha) hb]
      refine ⟨rfl, hs.carry rfl rfl, ?_⟩
      constructor <;> simp [setPositionByIndex] <;> omega

theorem step_inv (n : Nat) (s : SliderState) (e : Event) (h : Inv n s) : Inv n (step s e) := by
  obtain ⟨hs, ht⟩ := h
  cases e with
  | clickNext =>
    exact ⟨nextSlide_shaped n s hs,
      goToSlide_tracked n _ _ (hs.carry rfl rfl) (ht.keep rfl rfl rfl rfl rfl rfl)⟩
  | clickPrev =>
    exact ⟨prevSlide_shaped n s hs,
      goToSlide_tracked n _ _ (hs.carry rfl rfl) (ht.keep rfl rfl rfl rfl rfl rfl)⟩
  | key name =>
    simp only [step, handle]
    by_cases h1 : name = "ArrowLeft"
    · rw [h1, keydown_left]
      exact ⟨prevSlide_shaped n s hs,
        goToSlide_tracked n _ _ (hs.carry rfl rfl) (ht.keep rfl rfl rfl rfl rfl rfl)⟩
    · by_cases h2 : name = "ArrowRight"
      · rw [h2, keydown_right]
        exact ⟨nextSlide_shaped n s hs,
          goToSlide_tracked n _ _ (hs.carry rfl rfl) (ht.keep rfl rfl rfl rfl rfl rfl)⟩
      · rw [keydown_other s name h1 h2]
        exact ⟨hs, ht⟩
  | clickDot k =>
    simp only [step, handle, dotClick]
    cases s.dots[k]? with
    | none => exact ⟨hs, ht⟩
    | some d => exact ⟨goToSlide_shaped n s _ hs, goToSlide_tracked n s _ hs ht⟩
  | pointerDown index x =>
    simp only [step, handle]
    by_cases hi : index < s.slides.length
    · simp only [hi, if_true, Outcome.done]
      refine ⟨hs.carry rfl rfl, ?_⟩
      have hl := hs.slides_length
      constructor <;> simp [touchStart]
      omega
    · simp only [hi, if_false, Outcome.done]
      exact ⟨hs, ht⟩
  | pointerMove x =>
    simp only [step, handle, Outcome.done, touchMove]
    by_cases hd : s.isDragging = true
    · simp only [hd, if_true]
      refine ⟨hs.carry rfl rfl, ?_⟩
      constructor
      · exact ht.index_lo
      · exact ht.index_hi
      · intro h; simp [hd] at h
      · intro h; simp [hd] at h
      · intro h; simp [hd] at h
    · simp only [hd, if_false]
      exact ⟨hs, ht⟩
  | release => exact (touchEnd_inv n s ⟨hs, ht⟩).2
  | resize w =>
    simp only [step, handle, Outcome.done, onResize]
    refine ⟨hs.carry rfl rfl, ?_⟩
    constructor
    · exact ht.index_lo
    · exact ht.index_hi
    · intro _; rfl
    · intro _; rfl
    · exact ht.idle_grab

theorem loaded_inv (n : Nat) (w : Int) (hn : 0 < n) : Inv n (loaded n w) := by
  rw [loaded_eq n w hn]
  refine ⟨shown_shaped n _ _, ?_⟩
  constructor <;> simp [shown, createDots, pageLoad]
  omega

theorem reachableBy_inv {allow : Event → Bool} {n : Nat} {w : Int} {s : SliderState}
    (h : ReachableBy allow n w s) : 0 < n ∧ Inv n s := by
  induction h with
  | init h0 =>
    have hn := (initSlider_threw_iff n w).1 h0
    exact ⟨hn, loaded_inv n w hn⟩
  | next s e _ _ ih => exact ⟨ih.1, step_inv n s e ih.2⟩

/-- The offsets `goToSlide` writes do not depend on anything but the number
of slides and the target, whether or not the dot lookup then succeeds. -/
theorem goToSlide_slides (s : SliderState) (t : Int) :
    (goToSlide s t).st.slides = slidesShowing s.slides.length t := by
  simp only [goToSlide, activeDot, mapIdx_offsets]
  cases activateFirst t (s.dots.map (fun d => ({ d with active := false } : Dot))) with
  | none => simp [Outcome.andThen]
  | some ds =>
    simp only [Outcome.andThen, Outcome.done]
    split_ifs <;> simp_all

theorem slidesShowing_get (n : Nat) (t : Int) (j : Nat) (hj : j < n) :
    (slidesShowing n t)[j]? = some (some (100 * ((j : Int) - t))) := by
  simp [slidesShowing, hj, List.getElem?_eq_getElem]

theorem reachableBy_run {allow : Event → Bool} {n : Nat} {w : Int} {s : SliderState}
    (h : ReachableBy allow n w s) (es : List Event) (hes : ∀ e ∈ es, allow e = true) :
    ReachableBy allow n w (run s es) := by
  induction es generalizing s with
  | nil => exact h
  | cons e es ih =>
    exact ih (ReachableBy.next s e h (hes e (List.mem_cons_self e es)))
      (fun e' he' => hes e' (List.mem_cons_of_mem e he'))

theorem dotClick_eq (n : Nat) (s : SliderState) (k : Nat) (hs : Shaped n s) (hk : k < n) :
    dotClick s k = goToSlide s k := by
  have h := congrArg (fun l => l[k]?) hs.dots_attr
  simp only [List.getElem?_map, List.getElem?_range hk, Option.map_some'] at h
  cases hd : s.dots[k]? with
  | none => simp [hd] at h
  | some d =>
    simp only [hd, Option.map_some', Option.some.injEq] at h
    simp only [dotClick, hd, h]

theorem touchEnd_idle (n : Nat) (s : SliderState) (h : Inv n s) :
    (touchEnd s).st.isDragging = false := by
  obtain ⟨hs, ht⟩ := h
  have h0 := ht.index_lo
  have h1 := ht.index_hi
  have hl := hs.slides_length
  by_cases ha : s.currentTranslate - s.prevTranslate < -100 ∧ s.currentIndex < (n : Int) - 1
  · rw [touchEnd_advance n s hs h0 ha.1 ha.2]
    rfl
  · by_cases hb : s.currentTranslate - s.prevTranslate > 100 ∧ s.currentIndex > 0
    · rw [touchEnd_retreat n s hs h1 hb.1 hb.2]
      rfl
    · rw [touchEnd_stay s (by rw [hl]; exact ha) hb]
      rfl

/-- With no drag active, `touchEnd` rewrites every variable with the value it
already has. -/
theorem touchEnd_of_idle (n : Nat) (s : SliderState) (h : Inv n s)
    (hidle : s.isDragging = false) : touchEnd s = ⟨s, false⟩ := by
  obtain ⟨-, ht⟩ := h
  have hc := ht.idle_cur hidle
  have hp := ht.idle_prev hidle
  have hg := ht.idle_grab hidle
  rw [touchEnd_stay s (by omega) (by omega)]
  cases s
  simp only [setPositionByIndex] at *
  simp [hidle, hc, hp, hg]

/-- The `goToSlide` calls of one `touchEnd`: at most one, with a slide
position as argument. -/
theorem touchEnd_log (n : Nat) (s : SliderState) (h : Inv n s) :
    ∃ calls : List Int, (touchEnd s).st.goToSlideLog = s.goToSlideLog ++ calls ∧
      calls.length ≤ 1 ∧ ∀ a ∈ calls, 0 ≤ a ∧ a ≤ (n : Int) - 1 := by
  obtain ⟨hs, ht⟩ := h
  have h0 := ht.index_lo
  have h1 := ht.index_hi
  have hl := hs.slides_length
  by_cases ha : s.currentTranslate - s.prevTranslate < -100 ∧ s.currentIndex < (n : Int) - 1
  · rw [touchEnd_advance n s hs h0 ha.1 ha.2]
    refine ⟨[s.currentIndex + 1], rfl, by simp, ?_⟩
    intro a hmem
    simp only [List.mem_singleton] at hmem
    omega
  · by_cases hb : s.currentTranslate - s.prevTranslate > 100 ∧ s.currentIndex > 0
    · rw [touchEnd_retreat n s hs h1 hb.1 hb.2]
      refine ⟨[s.currentIndex - 1], rfl, by simp, ?_⟩
      intro a hmem
      simp only [List.mem_singleton] at hmem
      omega
    · rw [touchEnd_stay s (by rw [hl]; exact ha) hb]
      exact ⟨[], by simp [setPositionByIndex], by simp, by simp⟩

/-! ## The drag gesture -/

theorem run_append (s : SliderState) (a b : List Event) : run s (a ++ b) = run (run s a) b := by
  simp [run, List.foldl_append]

theorem run_cons (s : SliderState) (e : Event) (es : List Event) :
    run s (e :: es) = run (step s e) es := rfl

theorem run_moves (s : SliderState) (mid : List Int) (x1 : Int) (hd : s.isDragging = true) :
    run s ((mid ++ [x1]).map Event.pointerMove) =
      { s with currentTranslate := s.prevTranslate + x1 - s.startPos } := by
  induction mid generalizing s with
  | nil => simp [run, step, handle, Outcome.done, touchMove, hd]
  | cons m mid ih =>
    have h1 : step s (Event.pointerMove m) =
        { s with currentTranslate := s.prevTranslate + m - s.startPos } := by
      simp [step, handle, Outcome.done, touchMove, hd]
    have h2 := ih { s with currentTranslate := s.prevTranslate + m - s.startPos } hd
    rw [List.cons_append, List.map_cons, run_cons, h1, h2]

theorem display_shown (n : Nat) (s : SliderState) (t : Int) :
    (shown n s t).display = displayOf n t := rfl

theorem run_dragGesture (n : Nat) (s : SliderState) (i : Nat) (x0 x1 : Int) (mid : List Int)
    (hs : Shaped n s) (hi : i < n) :
    run s (dragGesture i x0 mid x1) = (touchEnd (atRelease s i x0 x1)).st := by
  have hl := hs.slides_length
  have h1 : step s (Event.pointerDown i x0) = touchStart i s x0 := by
    simp [step, handle, hl, hi, Outcome.done]
  rw [dragGesture, run_cons, h1, run_append, run_moves _ mid x1 rfl]
  rfl

/-! ## Stepping with `nextSlide` -/

theorem loaded_showing (n : Nat) (w : Int) (hn : 0 < n) : Showing n 0 (loaded n w) := by
  rw [loaded_eq n w hn]
  exact ⟨shown_shaped n _ _, rfl, rfl⟩

theorem nextSlide_showing (n j : Nat) (s : SliderState) (h : Showing n j s) (hj : j + 1 < n) :
    (nextSlide s).threw = false ∧ Showing n (j + 1) (nextSlide s).st := by
  have hs1 : Shaped n { s with currentSlide := s.currentSlide + 1 } := h.shaped.carry rfl rfl
  have key : nextSlide s = _ :=
    goToSlide_valid n _ (s.currentSlide + 1) hs1 (by rw [h.current]; omega)
      (by rw [h.current]; omega)
  rw [key]
  refine ⟨rfl, shown_shaped n _ _, ?_, ?_⟩
  · simp only [shown, h.current]
    push_cast
    rfl
  · rw [display_shown, h.current]
    push_cast
    rfl

theorem prevSlide_showing (n j : Nat) (s : SliderState) (h : Showing n (j + 1) s)
    (hj : j + 1 < n) :
    (prevSlide s).threw = false ∧ Showing n j (prevSlide s).st := by
  have hs1 : Shaped n { s with currentSlide := s.currentSlide - 1 } := h.shaped.carry rfl rfl
  have key : prevSlide s = _ :=
    goToSlide_valid n _ (s.currentSlide - 1) hs1 (by rw [h.current]; omega)
      (by rw [h.current]; omega)
  rw [key]
  refine ⟨rfl, shown_shaped n _ _, ?_, ?_⟩
  · simp only [shown, h.current]
    push_cast
    omega
  · rw [display_shown, h.current]
    congr 1
    push_cast
    omega

theorem nextTimes_showing (n j k : Nat) (s : SliderState) (h : Showing n j s) (hk : j + k < n) :
    Showing n (j + k) (nextTimes k s) := by
  induction k generalizing j s with
  | zero => exact h
  | succ k ih =>
    have h1 := (nextSlide_showing n j s h (by omega)).2
    have h2 := ih (j + 1) (nextSlide s).st h1 (by omega)
    have e : j + 1 + k = j + (k + 1) := by omega
    rw [e] at h2
    exact h2

theorem run_arrowRight (s : SliderState) (k : Nat) :
    run s (List.replicate k (Event.key "ArrowRight")) = nextTimes k s := by
  induction k generalizing s with
  | zero => rfl
  | succ k ih =>
    rw [List.replicate_succ, run_cons, ih]
    simp only [step, handle, keydown_right, nextTimes]

theorem displayOf_zero_iff (n : Nat) (t j : Nat) (hj : j < n) :
    (displayOf n (t : Int)).slides[j]? = some (some 0) ↔ j = t := by
  simp only [displayOf, slidesShowing_get n t j hj, Option.some.injEq]
  omega

/-! ## The claims -/

/-- C1: on a page of `n ≥ 1` slides, `goToSlide(t)` with `0 ≤ t ≤ n - 1` gives
every slide `j` the offset `100 * (j - t)` percent, whatever the offsets were
before: slide `t` is the only one at 0, slide `t + k` is at `100 k` and slide
`t - k` at `-100 k`.  On a page that has its dots the call does not throw. -/
theorem goToSlide_offsets (n : Nat) (s : SliderState) (t : Nat)
    (hn : 1 ≤ n) (hl : s.slides.length = n) (ht : t ≤ n - 1) :
    (goToSlide s t).st.slides.length = n ∧
    (∀ j : Nat, j < n →
      (goToSlide s t).st.slides[j]? = some (some (100 * ((j : Int) - (t : Int))))) ∧
    (∀ j : Nat, j < n → ((goToSlide s t).st.slides[j]? = some (some 0) ↔ j = t)) ∧
    (∀ k : Nat, t + k < n → (goToSlide s t).st.slides[t + k]? = some (some (100 * (k : Int)))) ∧
    (∀ k : Nat, k ≤ t → (goToSlide s t).st.slides[t - k]? = some (some (-(100 * (k : Int))))) ∧
    (∀ s0 : SliderState, s0.slides.length = n →
      (goToSlide s0 t).st.slides = (goToSlide s t).st.slides) ∧
    (Shaped n s → (goToSlide s t).threw = false) := by
  have hsl := goToSlide_slides s t
  rw [hl] at hsl
  refine ⟨?_, ?_, ?_, ?_, ?_, ?_, ?_⟩
  · rw [hsl, slidesShowing_length]
  · intro j hj
    rw [hsl, slidesShowing_get n t j hj]
  · intro j hj
    rw [hsl, slidesShowing_get n t j hj]
    simp only [Option.some.injEq]
    omega
  · intro k hk
    rw [hsl, slidesShowing_get n t (t + k) hk]
    simp only [Option.some.injEq]
    push_cast
    omega
  · intro k hk
    rw [hsl, slidesShowing_get n t (t - k) (by omega)]
    simp only [Option.some.injEq]
    omega
  · intro s0 h0
    rw [hsl, goToSlide_slides s0 t, h0]
  · intro hs
    rw [goToSlide_valid n s t hs (by omega) (by omega)]

/-- Witness of C1: three slides, target 1, from the freshly loaded page. -/
theorem goToSlide_offsets_witness :
    (1 ≤ 3 ∧ (loaded 3 800).slides.length = 3 ∧ 1 ≤ 3 - 1) ∧
    (goToSlide (loaded 3 800) 1).st.slides = [some (-100), some 0, some 100] ∧
    (goToSlide (loaded 3 800) 1).st.slides.length = 3 ∧
    (∀ j : Nat, j < 3 → ((goToSlide (loaded 3 800) (1 : Nat)).st.slides[j]? = some (some 0)
      ↔ j = 1)) :=
  ⟨⟨by decide, by decide, by decide⟩, by decide,
   (goToSlide_offsets 3 (loaded 3 800) 1 (by decide) (by decide) (by decide)).1,
   (goToSlide_offsets 3 (loaded 3 800) 1 (by decide) (by decide) (by decide)).2.2.1⟩

/-- C2, counterexample: with a single slide, `goToSlide(N - 1)` is
`goToSlide(0)`; it completes, disables the next control and leaves the prev
control disabled instead of enabling it. -/
theorem goToSlide_single_slide_prev_disabled :
    (goToSlide (loaded 1 800) ((1 : Int) - 1)).threw = false ∧
    (goToSlide (loaded 1 800) ((1 : Int) - 1)).st.btnRightDisabled = true ∧
    ¬ ((goToSlide (loaded 1 800) ((1 : Int) - 1)).st.btnLeftDisabled = false) := by
  decide

/-- C2, amended: on a page of `n ≥ 1` slides with its dots, whatever the two
flags were, `goToSlide(t)` with `0 ≤ t ≤ n - 1` completes and leaves the prev
control disabled iff `t = 0` and the next control disabled iff `t = n - 1`; a
click on dot `t` is that same call.  So `goToSlide(0)` disables prev and, when
`n > 1`, enables next; `goToSlide(n - 1)` disables next and, when `n > 1`,
enables prev. -/
theorem goToSlide_flags (n : Nat) (s : SliderState) (t : Nat)
    (hn : 1 ≤ n) (hs : Shaped n s) (ht : t ≤ n - 1) :
    (goToSlide s t).threw = false ∧
    ((goToSlide s t).st.btnLeftDisabled = true ↔ t = 0) ∧
    ((goToSlide s t).st.btnRightDisabled = true ↔ t = n - 1) ∧
    dotClick s t = goToSlide s t ∧
    (t = 0 → (goToSlide s t).st.btnLeftDisabled = true ∧
      (1 < n → (goToSlide s t).st.btnRightDisabled = false)) ∧
    (t = n - 1 → (goToSlide s t).st.btnRightDisabled = true ∧
      (1 < n → (goToSlide s t).st.btnLeftDisabled = false)) := by
  have hv := goToSlide_valid n s t hs (by omega) (by omega)
  refine ⟨by rw [hv], ?_, ?_, dotClick_eq n s t hs (by omega), ?_, ?_⟩
  · rw [hv]
    simp [shown]
  · rw [hv]
    simp only [shown, decide_eq_true_eq]
    omega
  · intro h0
    rw [hv]
    simp only [shown, decide_eq_true_eq, decide_eq_false_iff_not]
    omega
  · intro h0
    rw [hv]
    simp only [shown, decide_eq_true_eq, decide_eq_false_iff_not]
    omega

/-- Witness of C2 (amended): three slides, both flags set beforehand, target
the last slide. -/
theorem goToSlide_flags_witness :
    (1 ≤ 3 ∧ Shaped 3 { loaded 3 800 with btnLeftDisabled := true, btnRightDisabled := true } ∧
      2 ≤ 3 - 1) ∧
    (goToSlide { loaded 3 800 with btnLeftDisabled := true, btnRightDisabled := true }
        (2 : Nat)).threw = false ∧
    ((goToSlide { loaded 3 800 with btnLeftDisabled := true, btnRightDisabled := true }
        (2 : Nat)).st.btnLeftDisabled = true ↔ 2 = 0) :=
  ⟨⟨by decide, ⟨by decide, by decide⟩, by decide⟩,
   (goToSlide_flags 3 { loaded 3 800 with btnLeftDisabled := true, btnRightDisabled := true } 2
      (by decide) ⟨by decide, by decide⟩ (by decide)).1,
   (goToSlide_flags 3 { loaded 3 800 with btnLeftDisabled := true, btnRightDisabled := true } 2
      (by decide) ⟨by decide, by decide⟩ (by decide)).2.1⟩

/-- C3, the code at a failing input: three slides, one ArrowLeft right after
loading.  The state is reachable by navigation commands, `prevSlide` has
thrown in `activeDot`, and `currentSlide` is -1; three ArrowRight presses
leave it at 3. -/
theorem currentSlide_leaves_range :
    ReachableBy Event.isNavigation 3 800 (run (loaded 3 800) [Event.key "ArrowLeft"]) ∧
    (handle (loaded 3 800) (Event.key "ArrowLeft")).threw = true ∧
    (run (loaded 3 800) [Event.key "ArrowLeft"]).currentSlide = -1 ∧
    ReachableBy Event.isNavigation 3 800
      (run (loaded 3 800) [Event.key "ArrowRight", Event.key "ArrowRight", Event.key "ArrowRight"]) ∧
    (run (loaded 3 800)
      [Event.key "ArrowRight", Event.key "ArrowRight", Event.key "ArrowRight"]).currentSlide = 3 :=
  ⟨reachableBy_run (ReachableBy.init (by decide)) _ (by decide), by decide, by decide,
   reachableBy_run (ReachableBy.init (by decide)) _ (by decide), by decide⟩

/-- C4, the code at a failing input: three slides, a click on the last dot
right after loading.  The page shows slide 2 with prev enabled and next
disabled while `currentSlide` is still 0; a drag release from slide 0 to
slide 1 leaves `currentSlide` at 0 in the same way, with prev enabled. -/
theorem flags_detached_from_currentSlide :
    ReachableBy Event.isNavigation 3 800 (run (loaded 3 800) [Event.clickDot 2]) ∧
    (run (loaded 3 800) [Event.clickDot 2]).currentSlide = 0 ∧
    (run (loaded 3 800) [Event.clickDot 2]).btnLeftDisabled = false ∧
    (run (loaded 3 800) [Event.clickDot 2]).btnRightDisabled = true ∧
    (run (loaded 3 800) [Event.clickDot 2]).slides = [some (-200), some (-100), some 0] ∧
    (run (loaded 3 800)
      [Event.pointerDown 0 500, Event.pointerMove 350, Event.release]).currentSlide = 0 ∧
    (run (loaded 3 800)
      [Event.pointerDown 0 500, Event.pointerMove 350, Event.release]).btnLeftDisabled = false ∧
    (run (loaded 3 800)
      [Event.pointerDown 0 500, Event.pointerMove 350, Event.release]).slides
        = [some (-100), some 0, some 100] :=
  ⟨reachableBy_run (ReachableBy.init (by decide)) _ (by decide), by decide, by decide, by decide,
   by decide, by decide, by decide, by decide⟩

/-- C6, the code where the claim fails: on a page of `n` slides with its dots
(`n ≥ 1` included), `nextSlide` from `currentSlide = n - 1` throws, having moved
`currentSlide` to `n`, every slide off screen to the left and the active class
off every dot; `prevSlide` from `currentSlide = 0` throws likewise, with
`currentSlide` at -1. -/
theorem boundary_step_throws (n : Nat) (s : SliderState) (hs : Shaped n s) :
    (s.currentSlide = (n : Int) - 1 →
      (nextSlide s).threw = true ∧ (nextSlide s).st.currentSlide = (n : Int) ∧
      (nextSlide s).st.slides = slidesShowing n n ∧ (nextSlide s).st.activeDots = []) ∧
    (s.currentSlide = 0 →
      (prevSlide s).threw = true ∧ (prevSlide s).st.currentSlide = -1 ∧
      (prevSlide s).st.slides = slidesShowing n (-1) ∧ (prevSlide s).st.activeDots = []) := by
  constructor
  · intro hc
    have hs1 : Shaped n { s with currentSlide := s.currentSlide + 1 } := hs.carry rfl rfl
    have key : nextSlide s = _ :=
      goToSlide_invalid n _ (s.currentSlide + 1) hs1 (Or.inr (by omega))
    rw [key]
    simp only [hc, SliderState.activeDots]
    simp
  · intro hc
    have hs1 : Shaped n { s with currentSlide := s.currentSlide - 1 } := hs.carry rfl rfl
    have key : prevSlide s = _ :=
      goToSlide_invalid n _ (s.currentSlide - 1) hs1 (Or.inl (by omega))
    rw [key]
    simp only [hc, SliderState.activeDots]
    simp

/-- Witness of C6: three slides, ArrowRight pressed on the last slide. -/
theorem boundary_step_throws_witness :
    (Shaped 3 (run (loaded 3 800) [Event.clickNext, Event.clickNext]) ∧
      (run (loaded 3 800) [Event.clickNext, Event.clickNext]).currentSlide = (3 : Nat) - 1) ∧
    (handle (run (loaded 3 800) [Event.clickNext, Event.clickNext])
      (Event.key "ArrowRight")).threw = true ∧
    (nextSlide (run (loaded 3 800) [Event.clickNext, Event.clickNext])).threw = true ∧
    (nextSlide (run (loaded 3 800) [Event.clickNext, Event.clickNext])).st.currentSlide
      = (3 : Nat) :=
  ⟨⟨⟨by decide, by decide⟩, by decide⟩, by decide,
   ((boundary_step_throws 3 (run (loaded 3 800) [Event.clickNext, Event.clickNext])
      ⟨by decide, by decide⟩).1 (by decide)).1,
   ((boundary_step_throws 3 (run (loaded 3 800) [Event.clickNext, Event.clickNext])
      ⟨by decide, by decide⟩).1 (by decide)).2.1⟩

/-- C5: from a reachable state, the gesture pointer-down at `x0` on slide `i`,
pointer-moves ending at `x1`, release, with `d = x1 - x0`: if `d < -100` and
`i < n - 1` the page displays what `goToSlide(i + 1)` displays; if `d > 100`
and `i > 0`, what `goToSlide(i - 1)` displays; in every other case offsets,
dots and control flags are those before the gesture.  (So `d = -101` advances
from `i < n - 1`, `d = -99` does not, `d = 101` from slide 0 does not.) -/
theorem drag_release (n : Nat) (w : Int) (s : SliderState) (i : Nat) (x0 x1 : Int)
    (mid : List Int) (hr : Reachable n w s) (hidle : s.isDragging = false) (hi : i < n) :
    (x1 - x0 < -100 → (i : Int) < (n : Int) - 1 →
      (goToSlide s ((i : Int) + 1)).threw = false ∧
      (run s (dragGesture i x0 mid x1)).display = (goToSlide s ((i : Int) + 1)).st.display ∧
      (run s (dragGesture i x0 mid x1)).display = displayOf n ((i : Int) + 1)) ∧
    (x1 - x0 > 100 → 0 < i →
      (goToSlide s ((i : Int) - 1)).threw = false ∧
      (run s (dragGesture i x0 mid x1)).display = (goToSlide s ((i : Int) - 1)).st.display ∧
      (run s (dragGesture i x0 mid x1)).display = displayOf n ((i : Int) - 1)) ∧
    (¬ (x1 - x0 < -100 ∧ (i : Int) < (n : Int) - 1) → ¬ (x1 - x0 > 100 ∧ 0 < i) →
      (run s (dragGesture i x0 mid x1)).display = s.display) ∧
    (run s (dragGesture i x0 mid x1)).isDragging = s.isDragging := by
  obtain ⟨-, hs, -⟩ := reachableBy_inv hr
  have hl := hs.slides_length
  rw [run_dragGesture n s i x0 x1 mid hs hi]
  have hs1 : Shaped n (atRelease s i x0 x1) := hs.carry rfl rfl
  have hm : (atRelease s i x0 x1).currentTranslate - (atRelease s i x0 x1).prevTranslate
      = x1 - x0 := by
    simp only [atRelease]
    omega
  have hc : (atRelease s i x0 x1).currentIndex = (i : Int) := rfl
  have hl1 : (atRelease s i x0 x1).slides.length = n := hl
  refine ⟨?_, ?_, ?_, ?_⟩
  · intro hd hlt
    have hv := goToSlide_valid n s ((i : Int) + 1) hs (by omega) (by omega)
    rw [touchEnd_advance n _ hs1 (by omega) (by omega) (by omega), hv]
    exact ⟨rfl, rfl, rfl⟩
  · intro hd hgt
    have hv := goToSlide_valid n s ((i : Int) - 1) hs (by omega) (by omega)
    rw [touchEnd_retreat n _ hs1 (by omega) (by omega) (by omega), hv]
    exact ⟨rfl, rfl, rfl⟩
  · intro ha hb
    rw [touchEnd_stay _ (by omega) (by omega)]
    rfl
  · by_cases ha : x1 - x0 < -100 ∧ (i : Int) < (n : Int) - 1
    · rw [touchEnd_advance n _ hs1 (by omega) (by omega) (by omega)]
      exact hidle.symm
    · by_cases hb : x1 - x0 > 100 ∧ 0 < i
      · rw [touchEnd_retreat n _ hs1 (by omega) (by omega) (by omega)]
        exact hidle.symm
      · rw [touchEnd_stay _ (by omega) (by omega)]
        exact hidle.symm

/-- Witness of C5: three slides, pointer-down at 500 on slide 1, moves to 450
and 350 (`d = -150`), release: the page ends on slide 2 with the next control
disabled.  With it, on five slides from slide 1, `d = -101` advances and
`d = -99` does not, and from slide 0, `d = 101` does not move. -/
theorem drag_release_witness :
    (Reachable 3 800 (loaded 3 800) ∧ (loaded 3 800).isDragging = false ∧ 1 < 3) ∧
    ((350 : Int) - 500 < -100 ∧ ((1 : Nat) : Int) < ((3 : Nat) : Int) - 1) ∧
    ((goToSlide (loaded 3 800) (((1 : Nat) : Int) + 1)).threw = false ∧
      (run (loaded 3 800) (dragGesture 1 500 [450] 350)).display =
        (goToSlide (loaded 3 800) (((1 : Nat) : Int) + 1)).st.display ∧
      (run (loaded 3 800) (dragGesture 1 500 [450] 350)).display =
        displayOf 3 (((1 : Nat) : Int) + 1)) ∧
    (run (loaded 3 800) (dragGesture 1 500 [450] 350)).display =
      ⟨[some (-200), some (-100), some 0], [⟨0, false⟩, ⟨1, false⟩, ⟨2, true⟩], false, true⟩ ∧
    (run (loaded 5 800) (dragGesture 1 500 [] 399)).display = displayOf 5 2 ∧
    (run (loaded 5 800) (dragGesture 1 500 [] 401)).display = (loaded 5 800).display ∧
    (run (loaded 5 800) (dragGesture 0 500 [] 601)).display = (loaded 5 800).display :=
  ⟨⟨ReachableBy.init (by decide), by decide, by decide⟩, ⟨by decide, by decide⟩,
   (drag_release 3 800 (loaded 3 800) 1 500 350 [450] (ReachableBy.init (by decide))
      (by decide) (by decide)).1 (by decide) (by decide),
   by decide, by decide, by decide, by decide⟩

/-- C7: on a page with its dots whose `currentSlide` is an interior index `i`
(`0 < i < n - 1`, so `n ≥ 3`) and which displays what `goToSlide(i)` displays,
`nextSlide` then `prevSlide` both complete, `currentSlide` is `i` again, and
offsets, dots and control flags are those before the two calls. -/
theorem next_then_prev (n : Nat) (s : SliderState) (i : Nat) (hs : Shaped n s)
    (hi0 : 0 < i) (hi1 : i < n - 1) (hc : s.currentSlide = (i : Int))
    (hd : s.display = (goToSlide s (i : Int)).st.display) :
    3 ≤ n ∧
    (nextSlide s).threw = false ∧
    (nextSlide s).st.currentSlide = (i : Int) + 1 ∧
    (prevSlide (nextSlide s).st).threw = false ∧
    (prevSlide (nextSlide s).st).st.currentSlide = (i : Int) ∧
    (prevSlide (nextSlide s).st).st.display = s.display := by
  have hv := goToSlide_valid n s (i : Int) hs (by omega) (by omega)
  rw [hv, display_shown] at hd
  have h0 : Showing n i s := ⟨hs, hc, hd⟩
  obtain ⟨t1, h1⟩ := nextSlide_showing n i s h0 (by omega)
  obtain ⟨t2, h2⟩ := prevSlide_showing n i (nextSlide s).st h1 (by omega)
  refine ⟨by omega, t1, ?_, t2, h2.current, ?_⟩
  · rw [h1.current]
    push_cast
    rfl
  · rw [h2.display, hd]

/-- Witness of C7: three slides, the page on slide 1 after one click on next. -/
theorem next_then_prev_witness :
    (Shaped 3 (run (loaded 3 800) [Event.clickNext]) ∧ 0 < 1 ∧ 1 < 3 - 1 ∧
      (run (loaded 3 800) [Event.clickNext]).currentSlide = ((1 : Nat) : Int) ∧
      (run (loaded 3 800) [Event.clickNext]).display =
        (goToSlide (run (loaded 3 800) [Event.clickNext]) ((1 : Nat) : Int)).st.display) ∧
    (3 ≤ 3 ∧
      (nextSlide (run (loaded 3 800) [Event.clickNext])).threw = false ∧
      (nextSlide (run (loaded 3 800) [Event.clickNext])).st.currentSlide = ((1 : Nat) : Int) + 1 ∧
      (prevSlide (nextSlide (run (loaded 3 800) [Event.clickNext])).st).threw = false ∧
      (prevSlide (nextSlide (run (loaded 3 800) [Event.clickNext])).st).st.currentSlide
        = ((1 : Nat) : Int) ∧
      (prevSlide (nextSlide (run (loaded 3 800) [Event.clickNext])).st).st.display
        = (run (loaded 3 800) [Event.clickNext]).display) :=
  ⟨⟨⟨by decide, by decide⟩, by decide, by decide, by decide, by decide⟩,
   next_then_prev 3 (run (loaded 3 800) [Event.clickNext]) 1 ⟨by decide, by decide⟩
     (by decide) (by decide) (by decide) (by decide)⟩

/-- C8: on a page of `n ≥ 1` slides, after `i` calls of `nextSlide` from the
loaded page and then `k` ArrowRight presses, with `i + k ≤ n - 1`:
`currentSlide` is `i + k`, slide `i + k` and no other is at offset 0, the next
control is disabled iff `i + k = n - 1` and the prev control iff `i + k = 0`.
The keydown listener runs `prevSlide` on ArrowLeft and leaves the state as it
is on any key other than the two arrows. -/
theorem keyboard_stepping (n : Nat) (w : Int) (i k : Nat) (hn : 1 ≤ n) (hik : i + k ≤ n - 1) :
    (run (nextTimes i (loaded n w)) (List.replicate k (Event.key "ArrowRight"))).currentSlide
      = ((i + k : Nat) : Int) ∧
    (∀ j : Nat, j < n →
      ((run (nextTimes i (loaded n w)) (List.replicate k (Event.key "ArrowRight"))).slides[j]?
        = some (some 0) ↔ j = i + k)) ∧
    ((run (nextTimes i (loaded n w)) (List.replicate k (Event.key "ArrowRight"))).btnRightDisabled
      = true ↔ i + k = n - 1) ∧
    ((run (nextTimes i (loaded n w)) (List.replicate k (Event.key "ArrowRight"))).btnLeftDisabled
      = true ↔ i + k = 0) ∧
    (∀ s : SliderState, handle s (Event.key "ArrowLeft") = prevSlide s) ∧
    (∀ s : SliderState, handle s (Event.key "ArrowRight") = nextSlide s) ∧
    (∀ (s : SliderState) (name : String), name ≠ "ArrowLeft" → name ≠ "ArrowRight" →
      handle s (Event.key name) = ⟨s, false⟩) := by
  have h0 := loaded_showing n w (by omega)
  have h1 := nextTimes_showing n 0 i (loaded n w) h0 (by omega)
  have h2 := nextTimes_showing n (0 + i) k _ h1 (by omega)
  rw [Nat.zero_add] at h2
  rw [run_arrowRight]
  have hd := h2.display
  have hsl : (nextTimes k (nextTimes i (loaded n w))).slides = (displayOf n ((i + k : Nat) : Int)).slides :=
    congrArg Display.slides hd
  have hl : (nextTimes k (nextTimes i (loaded n w))).btnLeftDisabled
      = (displayOf n ((i + k : Nat) : Int)).btnLeftDisabled := congrArg Display.btnLeftDisabled hd
  have hr : (nextTimes k (nextTimes i (loaded n w))).btnRightDisabled
      = (displayOf n ((i + k : Nat) : Int)).btnRightDisabled :=
    congrArg Display.btnRightDisabled hd
  refine ⟨h2.current, ?_, ?_, ?_, fun s => keydown_left s, fun s => keydown_right s,
    fun s name a b => keydown_other s name a b⟩
  · intro j hj
    rw [hsl]
    exact displayOf_zero_iff n (i + k) j hj
  · rw [hr]
    simp only [displayOf, decide_eq_true_eq]
    omega
  · rw [hl]
    simp only [displayOf, decide_eq_true_eq]
    omega

/-- Witness of C8: five slides, two calls of `nextSlide`, two ArrowRight
presses: index 4, next disabled, prev enabled. -/
theorem keyboard_stepping_witness :
    (1 ≤ 5 ∧ 2 + 2 ≤ 5 - 1) ∧
    (run (nextTimes 2 (loaded 5 800)) (List.replicate 2 (Event.key "ArrowRight"))).currentSlide
      = ((2 + 2 : Nat) : Int) ∧
    (run (nextTimes 2 (loaded 5 800)) [Event.key "ArrowRight", Event.key "ArrowRight"]).currentSlide
      = 4 ∧
    (run (nextTimes 2 (loaded 5 800))
      [Event.key "ArrowRight", Event.key "ArrowRight"]).btnRightDisabled = true ∧
    (run (nextTimes 2 (loaded 5 800))
      [Event.key "ArrowRight", Event.key "ArrowRight"]).btnLeftDisabled = false :=
  ⟨⟨by decide, by decide⟩, (keyboard_stepping 5 800 2 2 (by decide) (by decide)).1,
   by decide, by decide, by decide⟩

/-- C9: in a state reached from the loaded page by events of any allowed kind
(pointer-down, pointer-move, release and resize in particular) in which no
drag is active, `touchEnd` completes and leaves the whole state as it is:
offsets, dots, control flags, tracker index, both translate variables.  Hence
a second release right after a release changes nothing. -/
theorem release_when_idle (allow : Event → Bool) (n : Nat) (w : Int) (s : SliderState)
    (hr : ReachableBy allow n w s) :
    (s.isDragging = false → handle s Event.release = ⟨s, false⟩) ∧
    (s.isDragging = false → step s Event.release = s) ∧
    step (step s Event.release) Event.release = step s Event.release := by
  obtain ⟨-, hinv⟩ := reachableBy_inv hr
  have h1 : s.isDragging = false → handle s Event.release = ⟨s, false⟩ :=
    fun hidle => touchEnd_of_idle n s hinv hidle
  refine ⟨h1, fun hidle => by rw [step, h1 hidle], ?_⟩
  have h2 := touchEnd_of_idle n (touchEnd s).st (touchEnd_inv n s hinv).2
    (touchEnd_idle n s hinv)
  show (touchEnd (touchEnd s).st).st = (touchEnd s).st
  rw [h2]

/-- Witness of C9: three slides, a drag from slide 1 to slide 2 already
released, then resized; the next release finds no drag active. -/
theorem release_when_idle_witness :
    ReachableBy Event.isPointer 3 800
      (run (loaded 3 800) [Event.pointerDown 1 500, Event.pointerMove 350, Event.release,
        Event.resize 640]) ∧
    (run (loaded 3 800) [Event.pointerDown 1 500, Event.pointerMove 350, Event.release,
        Event.resize 640]).isDragging = false ∧
    handle (run (loaded 3 800) [Event.pointerDown 1 500, Event.pointerMove 350, Event.release,
        Event.resize 640]) Event.release =
      ⟨run (loaded 3 800) [Event.pointerDown 1 500, Event.pointerMove 350, Event.release,
        Event.resize 640], false⟩ :=
  ⟨reachableBy_run (ReachableBy.init (by decide)) _ (by decide), by decide,
   (release_when_idle Event.isPointer 3 800 _
      (reachableBy_run (ReachableBy.init (by decide))
        [Event.pointerDown 1 500, Event.pointerMove 350, Event.release, Event.resize 640]
        (by decide))).1 (by decide)⟩

/-- C10: in a state reached from the loaded page of `n` slides by events of
any allowed kind (pointer-down, pointer-move, release and resize in
particular), the tracker index satisfies `0 ≤ currentIndex ≤ n - 1`; a release
does not throw, and the `goToSlide` calls it makes (at most one) have an
argument in `[0, n - 1]`. -/
theorem tracker_index_in_range (allow : Event → Bool) (n : Nat) (w : Int) (s : SliderState)
    (hr : ReachableBy allow n w s) :
    (0 ≤ s.currentIndex ∧ s.currentIndex ≤ (n : Int) - 1) ∧
    (handle s Event.release).threw = false ∧
    ∃ calls : List Int,
      (handle s Event.release).st.goToSlideLog = s.goToSlideLog ++ calls ∧
      calls.length ≤ 1 ∧ ∀ a ∈ calls, 0 ≤ a ∧ a ≤ (n : Int) - 1 := by
  obtain ⟨-, hinv⟩ := reachableBy_inv hr
  have h0 := hinv.2.index_lo
  have h1 := hinv.2.index_hi
  exact ⟨⟨h0, by omega⟩, (touchEnd_inv n s hinv).1, touchEnd_log n s hinv⟩

/-- Witness of C10: three slides, a drag on slide 1 moved left by 150 and not
yet released; the release will call `goToSlide(2)`. -/
theorem tracker_index_in_range_witness :
    ReachableBy Event.isPointer 3 800
      (run (loaded 3 800) [Event.pointerDown 1 500, Event.pointerMove 350]) ∧
    (handle (run (loaded 3 800) [Event.pointerDown 1 500, Event.pointerMove 350])
      Event.release).st.goToSlideLog = [0, 2] ∧
    (0 ≤ (run (loaded 3 800) [Event.pointerDown 1 500, Event.pointerMove 350]).currentIndex ∧
      (run (loaded 3 800) [Event.pointerDown 1 500, Event.pointerMove 350]).currentIndex
        ≤ ((3 : Nat) : Int) - 1) :=
  ⟨reachableBy_run (ReachableBy.init (by decide)) _ (by decide), by decide,
   (tracker_index_in_range Event.isPointer 3 800 _
      (reachableBy_run (ReachableBy.init (by decide))
        [Event.pointerDown 1 500, Event.pointerMove 350] (by decide))).1⟩

end Bankist
